import Mathlib

set_option maxRecDepth 1000000

/-!
# Verification of the spotlight crawler (src/spotlight.py)

Shallow embedding of the crawl-and-corpus pipeline implemented in
`src/spotlight.py`.  External collaborators (the `requests` transport, the
BeautifulSoup parser, the spacy pipeline, the lda fitting step, the regex
engine) are modelled at their interfaces, exactly where the spec places the
system boundary; everything inside those boundaries is translated from the
Python source line by line.
-/

/-! ## Basic model types -/

/-- URLs and hrefs are plain strings, as in the source. -/
abbrev Url := String

/-- Python `s.startswith(pre)`. -/
def pyStartswith (s pre : String) : Bool := pre.data.isPrefixOf s.data

/-- Python `' '.join(ws)`. -/
def joinWords (ws : List String) : String := String.intercalate " " ws

/-- Helper for `pySplit`: walks the characters, accumulating the current
(reversed) word, emitting it at whitespace and at the end. -/
def pySplitAux : List Char → List Char → List String
  | [], acc => if acc = [] then [] else [String.mk acc.reverse]
  | c :: cs, acc =>
    if c.isWhitespace then
      (if acc = [] then [] else [String.mk acc.reverse]) ++ pySplitAux cs []
    else pySplitAux cs (c :: acc)

/-- Python `s.split()` with no arguments: split on whitespace runs,
dropping empty pieces. -/
def pySplit (s : String) : List String := pySplitAux s.data []

/-- The Python exceptions that can cross the boundaries modelled here. -/
inductive PyErr where
  | requestsConnectionError
  | requestsInvalidSchema
  | requestsChunkedEncodingError
  | requestsTimeout
  | nameError
  | unboundLocalError
deriving DecidableEq

/-- A parsed `<a>` tag: its `href` attribute (absent → `none`) and its
`class` attribute (absent → `none`, modelling the `KeyError` /
`AttributeError` paths of the source). -/
structure Anchor where
  href : Option Url
  classes : Option (List String)

/-- A parsed `<p>` tag: its `class` attribute and its `get_text()` result. -/
structure Para where
  classes : Option (List String)
  text : String

/-- A parsed container element (anything `soup.find_all(class_=cl)` can
return): its class list, its first nested anchor (`find('a')`) and the
`get_text()` of its first nested paragraph (`find('p')`). -/
structure Container where
  classes : List String
  firstAnchor : Option Anchor
  firstPara : Option String

/-- A fetched page, as seen through the tag queries the source performs:
`find_all('a')`, `find_all('p')`, and `find_all(class_=cl)`. -/
structure Page where
  anchors : List Anchor
  paras : List Para
  containers : List Container

/-- A spacy token, keeping the source's attribute names `lemma_`, `pos_`. -/
structure Token where
  lemma_ : String
  pos_ : String

/-! ## Crawler.__init__ constants (src/spotlight.py lines 67-79) -/

def url_classes : List String :=
  ["css-826iu8", "css-1gd0wp5", "js-headline-text",
   "pagination__action--static", "css-cywksh", "comments"]

def embedded_url_classes : List String :=
  ["view-more-links", "teaser-wrapper", "pager-next"]

/-! ## Crawler.request (lines 81-106)

`requests.get(url)` is line 84, *outside* the `try` that starts at line 86.
The model therefore lets every exception the `requests` library raises at
`get` time propagate (`Except.error`), while the `try` body (the status
check and the `.text` read) recovers with the sentinel document. -/

/-- What the external `requests.get` call (plus the subsequent `.text`
read) does for one URL: a response with a status and body, a response whose
body read raises `ChunkedEncodingError` inside the `try`, or an exception
raised by `requests.get` itself. -/
inductive GetResult where
  | ok (status : Nat) (body : String)
  | okTextChunkedError
  | connError
  | invalidSchema
  | chunkedError
  | timeout

/-- The sentinel empty document of lines 91 and 96. -/
def empty_document : String := "<!-- -->"

namespace Crawler

/-- `Crawler.request`, restricted to the html it produces (the
BeautifulSoup parse of that html is external).  Exceptions raised by
`requests.get` itself occur before the `try` block and propagate. -/
def request : GetResult → Except PyErr String
  | GetResult.ok s body => if s = 200 then Except.ok body else Except.ok empty_document
  | GetResult.okTextChunkedError => Except.ok empty_document
  | GetResult.connError => Except.error PyErr.requestsConnectionError
  | GetResult.invalidSchema => Except.error PyErr.requestsInvalidSchema
  | GetResult.chunkedError => Except.error PyErr.requestsChunkedEncodingError
  | GetResult.timeout => Except.error PyErr.requestsTimeout

/-! ## Crawler.format_links (lines 162-172)

`link.get('href')` on a tag without an href returns `None`, and
`None.startswith('/')` raises `AttributeError`, caught at line 171;
`link` itself being `None` (a container without a nested anchor) makes
`link.get` raise `AttributeError` as well.  Both paths return `url_base`. -/

def format_links (url_base : Url) (link : Option Anchor) : Url :=
  match link with
  | none => url_base
  | some a =>
    match a.href with
    | none => url_base
    | some h => if pyStartswith h "/" then url_base ++ h else h

/-! ## Crawler.get_links (lines 174-211) -/

/-- Does the anchor's class attribute contain `cl`?  A missing class
attribute raises `KeyError` at line 185, treated as no match. -/
def anchorHasClass (a : Anchor) (cl : String) : Bool :=
  match a.classes with
  | none => false
  | some cls => cl ∈ cls

/-- The links one anchor of `chefsoup` contributes to `to_visit`
(lines 177-195).  In strict mode the class loop appends once per matching
configured class; in sloppy mode the unconditional append at line 193 runs.
Every append is guarded by the domain check of line 181. -/
def anchor_links (url_base : Url) (sloppy : Bool) (a : Anchor) : List Url :=
  let final_link := format_links url_base (some a)
  if pyStartswith final_link url_base then
    (if sloppy then []
     else (url_classes.filter (fun cl => anchorHasClass a cl)).map (fun _ => final_link))
    ++ (if sloppy then [final_link] else [])
  else []

/-- The links the embedded-class pass contributes (lines 197-211), run only
when link relaxation is off.  `link.find('a')` may be `None`, which
`format_links` turns into `url_base`; the append is guarded by the domain
check of line 206. -/
def embedded_links (page : Page) (url_base : Url) : List Url :=
  embedded_url_classes.flatMap (fun cl =>
    (page.containers.filter (fun c => cl ∈ c.classes)).flatMap (fun c =>
      let final_link := format_links url_base c.firstAnchor
      if pyStartswith final_link url_base then [final_link] else []))

/-- All links `Crawler.get_links` appends to `to_visit`, in order. -/
def get_links (page : Page) (url_base : Url) (sloppy : Bool) : List Url :=
  page.anchors.flatMap (anchor_links url_base sloppy)
    ++ (if sloppy then [] else embedded_links page url_base)

end Crawler

/-! ## Digger.extract_text (lines 223-269) -/

namespace Digger

/-- The configured text classes (lines 231-235). -/
def css_classes : List String := ["css-1dznooa", "dcr-xry7m2", "dcr-1of5t9g"]

/-- The configured embedded text classes (lines 236-239). -/
def embedded_classes : List String := ["md", "field-item"]

/-- Does the paragraph's class attribute contain `cl`?  A missing class
attribute raises `KeyError` at line 248, treated as no match (line 252). -/
def paraHasClass (p : Para) (cl : String) : Bool :=
  match p.classes with
  | none => false
  | some cls => cl ∈ cls

/-- One iteration of the `for paragraph in peasoup` loop (lines 241-257).
The seen-on-this-page check of line 242 runs once per paragraph; inside it,
strict mode appends once per matching configured class (lines 245-252) and
sloppy mode appends once unconditionally (line 257). -/
def paraStep (sloppy : Bool) (acc : List String) (p : Para) : List String :=
  if p.text ∈ acc then acc
  else
    acc ++ (if sloppy then []
            else (css_classes.filter (fun cl => paraHasClass p cl)).map (fun _ => p.text))
        ++ (if sloppy then [p.text] else [])

/-- The containers the embedded-text pass iterates, in loop order
(lines 258-261): for each embedded class, every element bearing it. -/
def embeddedTextItems (page : Page) : List Container :=
  embedded_classes.flatMap (fun cl =>
    page.containers.filter (fun c => cl ∈ c.classes))

/-- One iteration of the embedded-text loop body (lines 262-267):
`paragraph.find('p')` may be `None`, in which case `get_text` raises
`AttributeError`, caught at line 266; otherwise the snippet is appended
if not already seen on this page. -/
def embeddedTextStep (acc : List String) (c : Container) : List String :=
  match c.firstPara with
  | none => acc
  | some t => if t ∈ acc then acc else acc ++ [t]

/-- The list `extracted_text` as built by `Digger.extract_text`; the
embedded pass runs only when text relaxation is off (line 258). -/
def extract_text_list (page : Page) (sloppy : Bool) : List String :=
  let base := page.paras.foldl (paraStep sloppy) []
  if sloppy then base else (embeddedTextItems page).foldl embeddedTextStep base

/-- `Digger.extract_text` (line 269 joins the snippets with spaces). -/
def extract_text (page : Page) (sloppy : Bool) : String :=
  joinWords (extract_text_list page sloppy)

/-! ## Digger.lemmatize (lines 271-336)

The spacy pipeline is external: the caller passes the token sequence
`nlp(article)` produces.  The frequency file's per-line words (column 1 of
`frequency-en.csv` for `en`, column 0 of `frequency-sv.tsv` for `sv`) are
external data, passed as `freqRows`. -/

/-- The closed-class POS tags (lines 278-287). -/
def closed_class_words : List String :=
  ["PUNCT", "SYM", "ADP", "AUX", "CCONJ", "DET", "NUM", "PART", "PRON", "SCONJ"]

/-- The frequency-list loop (lines 300-306 and 311-317): starting from
`frequency_count = 0`, each line's word is appended while the counter is
at most 150, the counter is incremented, and the loop breaks once the
counter exceeds 150. -/
def freqLoop : Nat → List String → List String → List String
  | _, [], acc => acc
  | count, w :: rest, acc =>
    if count ≤ 150 then
      (if count + 1 > 150 then acc ++ [w] else freqLoop (count + 1) rest (acc ++ [w]))
    else acc

/-- The token loop of lines 321-336: a lemma is appended iff it is not
already in `vocab`, its POS is open-class, it is longer than 3 characters,
it is not in the frequency list, and it contains neither `%` nor `"`. -/
def lemmaLoop (frequency_list : List String) : List Token → List String → List String
  | [], vocab => vocab
  | t :: doc, vocab =>
    if t.lemma_ ∉ vocab ∧ t.pos_ ∉ closed_class_words ∧ 3 < t.lemma_.length
        ∧ t.lemma_ ∉ frequency_list ∧ '%' ∉ t.lemma_.data ∧ '"' ∉ t.lemma_.data
    then lemmaLoop frequency_list doc (vocab ++ [t.lemma_])
    else lemmaLoop frequency_list doc vocab

/-- `Digger.lemmatize`: any language other than `en` / `sv` raises
`NameError` (line 319) before any token is examined; both supported
branches build the frequency list with the same loop and run the token
loop over the spacy output `doc`. -/
def lemmatize (freqRows : List String) (lang : String) (doc : List Token) :
    Except PyErr (List String) :=
  if lang = "en" then Except.ok (lemmaLoop (freqLoop 0 freqRows []) doc [])
  else if lang = "sv" then Except.ok (lemmaLoop (freqLoop 0 freqRows []) doc [])
  else Except.error PyErr.nameError

/-! ## Digger.extract_topic (lines 338-366) -/

/-- The inner counting loop of lines 347-350: occurrences of `word` among
the whitespace-split tokens of one article. -/
def word_count_loop (article_words : List String) (word : String) : Nat :=
  article_words.foldl (fun n aw => if aw = word then n + 1 else n) 0

/-- One row of the document-term matrix (lines 345-351): one count per
vocabulary word, in vocabulary order. -/
def array_column (uniq_words : List String) (article : String) : List Nat :=
  uniq_words.map (fun w => word_count_loop (pySplit article) w)

/-- The full document-term matrix `topic_array` (lines 342-356): one row
per article, in article order. -/
def topic_array (articles : List String) (uniq_words : List String) : List (List Nat) :=
  articles.map (fun a => array_column uniq_words a)

/-- `Digger.extract_topic`.  The numeric lda fit and the report rendering
from its weights (lines 357-366) are the external topic-model capability,
abstracted as `fit`.  When `articles` is empty the loop of lines 342-356
never assigns `topic_array`, so `model.fit(topic_array)` at line 358
raises `UnboundLocalError`, which propagates out of the function. -/
def extract_topic (fit : List (List Nat) → List String → String)
    (articles : List String) (uniq_words : List String) : Except PyErr String :=
  match topic_array articles uniq_words with
  | [] => Except.error PyErr.unboundLocalError
  | rows => Except.ok (fit rows uniq_words)

end Digger

/-! ## Crawler.spider (lines 108-160)

The crawl state mirrors the `Crawler` instance attributes.  Python sets
(`visited`, `vocab_set`) are modelled as insertion-ordered duplicate-free
lists: the source only ever inserts after a membership test, so membership
semantics coincide. -/

structure CrawlState where
  to_visit : List Url
  visited : List Url
  vis_count : Nat
  vocab_set : List String
  article_list : List String

/-- The external collaborators one crawl runs against, plus its
configuration.  `fetch` abstracts `Crawler.request` together with the
BeautifulSoup parse; `urlBase` abstracts `re.match(r'.+\.\w+', url)`
inside `request`; `nlp` abstracts the spacy pipeline for a language. -/
structure SpiderEnv where
  fetch : Url → Page
  urlBase : Url → Url
  nlp : String → String → List Token
  freqRows : List String
  lang : String
  sloppyText : Bool
  sloppyLink : Bool
  count : Nat

/-- The vocabulary fold of lines 133-135: each lemma is added to
`vocab_set` if not already present. -/
def foldVocab (vocab : List String) (lem : List String) : List String :=
  lem.foldl (fun v w => if w ∈ v then v else v ++ [w]) vocab

/-- The body of the `for link in self.to_visit` loop (lines 116-146) for
one link.  Returns the URLs fetched during the step (the trace, used to
observe whether a page was fetched) and either the updated state or the
propagated exception.  A link already visited, or a visit count above
`count`, skips the body (line 145-146). -/
def spiderStep (env : SpiderEnv) (st : CrawlState) (link : Url) :
    List Url × Except PyErr CrawlState :=
  if link ∉ st.visited ∧ st.vis_count ≤ env.count then
    let page := env.fetch link
    let text := Digger.extract_text page env.sloppyText
    match Digger.lemmatize env.freqRows env.lang (env.nlp env.lang text) with
    | Except.error e => ([link], Except.error e)
    | Except.ok lem =>
      let st1 :=
        if lem ≠ [] then
          { st with vocab_set := foldVocab st.vocab_set lem,
                    article_list := st.article_list ++ [joinWords lem] }
        else st
      let newLinks := Crawler.get_links page (env.urlBase link) env.sloppyLink
      ([link],
       Except.ok { st1 with to_visit := st1.to_visit ++ newLinks,
                            visited := st1.visited ++ [link],
                            vis_count := st1.vis_count + 1 })
  else ([], Except.ok st)

/-- The `for link in self.to_visit` loop itself.  Python iterates the list
by index and sees elements appended during iteration, so the loop state is
the current index into the (growing) `to_visit` list.  `fuel` bounds the
number of iterations; it is a model artifact (the concrete runs below use
visibly sufficient fuel). -/
def spiderLoop (env : SpiderEnv) : Nat → CrawlState → Nat →
    List Url × Except PyErr CrawlState
  | 0, st, _ => ([], Except.ok st)
  | fuel + 1, st, i =>
    if h : i < st.to_visit.length then
      match spiderStep env st (st.to_visit.get ⟨i, h⟩) with
      | (tr, Except.error e) => (tr, Except.error e)
      | (tr, Except.ok st1) =>
        let rest := spiderLoop env fuel st1 (i + 1)
        (tr ++ rest.1, rest.2)
    else ([], Except.ok st)

/-- The crawl phase of `Crawler.spider` (lines 113-146), starting from a
fresh `Crawler` state: the start URL is appended to the empty `to_visit`
list (line 114) and the loop runs from index 0. -/
def spider (env : SpiderEnv) (fuel : Nat) (url : Url) :
    List Url × Except PyErr CrawlState :=
  spiderLoop env fuel
    { to_visit := [url], visited := [], vis_count := 0,
      vocab_set := [], article_list := [] } 0

/-! ## The reporting phase of Crawler.spider (lines 147-160) -/

/-- The suggestion printed when extraction produced no usable content
(lines 157-160). -/
def suggestion_message : String :=
  "Something went wrong during extraction; which probably means that you entered a website where there are no appropriate CSS classes. Try again with either the --sloppytext or --sloppy flag."

/-- The block appended to the per-domain output file and echoed to the
console on success (lines 150-155). -/
def outputBlock (st : CrawlState) (url : Url) (result : String) : String :=
  "crawled " ++ toString st.visited.length ++ " pages on " ++ url
    ++ " " ++ result

/-- The externally observable effect of the reporting phase: what was
appended to the per-domain output file, and what was printed. -/
structure ReportEffect where
  fileAppended : List String
  printed : List String
deriving DecidableEq

/-- The `try` block of lines 147-160: `extract_topic` runs first; on
success its result is appended to the output file and printed, and an
`UnboundLocalError` (the only exception the model's `extract_topic`
raises) skips the file write and prints the suggestion instead. -/
def report_phase (fit : List (List Nat) → List String → String)
    (st : CrawlState) (url : Url) : ReportEffect :=
  match Digger.extract_topic fit st.article_list st.vocab_set with
  | Except.ok result =>
    { fileAppended := [outputBlock st url result],
      printed := [outputBlock st url result] }
  | Except.error _ =>
    { fileAppended := [], printed := [suggestion_message] }

/-! ## Specification-side definition of token retention

The spec describes VocabularyBuilder.normalize as retaining a lemma iff a
conjunction of five conditions holds; this definition follows that wording
(it is compared against `Digger.lemmatize`, translated from the source,
in the refinement theorem below). -/

/-- The spec's retention condition for one (lemma, part-of-speech) pair,
relative to the frequency-list snapshot `freqTop` and the output built so
far for this document. -/
def retainedSpec (freqTop : List String) (out : List String) (t : Token) : Prop :=
  t.lemma_ ∉ out ∧ t.pos_ ∉ Digger.closed_class_words ∧ 3 < t.lemma_.length
    ∧ t.lemma_ ∉ freqTop ∧ '%' ∉ t.lemma_.data ∧ '"' ∉ t.lemma_.data

instance (freqTop out : List String) (t : Token) :
    Decidable (retainedSpec freqTop out t) := by
  unfold retainedSpec; infer_instance

/-- The spec's normalize: fold over the lemmatizer's pairs, appending each
retained lemma to the output sequence. -/
def normalizeSpec (freqTop : List String) (doc : List Token) : List String :=
  doc.foldl (fun out t => if retainedSpec freqTop out t then out ++ [t.lemma_] else out) []

/-! ## Concrete fixtures used by the witnesses and counterexamples -/

/-- A page whose single in-domain anchor carries the configured class
`comments`. -/
def pageA : Page :=
  { anchors := [{ href := some "/b", classes := some ["comments"] }],
    paras := [], containers := [] }

/-- A page with no tags at all. -/
def emptyPage : Page := { anchors := [], paras := [], containers := [] }

/-- A crawl environment with budget 1 over a two-page site: the start page
links to `/b` through a configured link class, `/b` is empty. -/
def envC1 : SpiderEnv :=
  { fetch := fun u => if u = "http://a.com" then pageA else emptyPage,
    urlBase := fun _ => "http://a.com",
    nlp := fun _ _ => [],
    freqRows := [],
    lang := "en",
    sloppyText := false,
    sloppyLink := false,
    count := 1 }

/-- The same crawl configured with the unsupported language code `de`. -/
def envC4 : SpiderEnv := { envC1 with lang := "de", count := 3 }

/-- A page whose single paragraph carries two of the configured text
classes at once. -/
def pgDupClasses : Page :=
  { anchors := [],
    paras := [{ classes := some ["css-1dznooa", "dcr-xry7m2"], text := "hello" }],
    containers := [] }

/-- A page whose paragraphs each match at most one configured text class,
plus an embedded container with its own snippet. -/
def pgSingleClass : Page :=
  { anchors := [],
    paras := [{ classes := some ["css-1dznooa"], text := "alpha" },
              { classes := none, text := "beta" }],
    containers := [{ classes := ["md"], firstAnchor := none, firstPara := some "gamma" }] }

/-- A frequency file whose 151st entry is `zzzz`. -/
def fr151 : List String := List.replicate 150 "aaaa" ++ ["zzzz"]

/-- A token whose lemma is the 151st most frequent word. -/
def tokZ : Token := { lemma_ := "zzzz", pos_ := "NOUN" }

/-- A crawl state that has already visited one page. -/
def stVisited : CrawlState :=
  { to_visit := ["http://a.com"], visited := ["http://a.com"], vis_count := 1,
    vocab_set := [], article_list := [] }

/-- A crawl state whose crawl produced no usable article. -/
def stEmptyCorpus : CrawlState :=
  { to_visit := ["http://a.com"], visited := ["http://a.com"], vis_count := 1,
    vocab_set := [], article_list := [] }

/-! ## Helper lemmas -/

/-- A successful `startswith` check exhibits the checked string as the
prefix followed by a remainder. -/
theorem pyStartswith_exists {s p : String} (h : pyStartswith s p = true) :
    ∃ t : String, s = p ++ t := by
  unfold pyStartswith at h
  rw [ List.isPrefixOf_iff_prefix] at h
  rcases h with ⟨t, ht⟩
  refine ⟨⟨t⟩, String.ext ?_⟩
  rw [String.data_append]
  exact ht.symm

/-- Every link `anchor_links` produces passed the domain check against
`url_base`. -/
theorem anchor_links_startswith (url_base : Url) (sloppy : Bool) (a : Anchor) (l : Url)
    (h : l ∈ Crawler.anchor_links url_base sloppy a) :
    pyStartswith l url_base = true := by
  unfold Crawler.anchor_links at h
  by_cases hpre : pyStartswith (Crawler.format_links url_base (some a)) url_base = true
  · rw [if_pos hpre] at h
    have hl : l = Crawler.format_links url_base (some a) := by
      rcases List.mem_append.mp h with h1 | h1
      · by_cases hs : sloppy
        · rw [if_pos hs] at h1; simp at h1
        · rw [if_neg hs] at h1
          rcases List.mem_map.mp h1 with ⟨cl, _, h2⟩
          exact h2.symm
      · by_cases hs : sloppy
        · rw [if_pos hs] at h1
          simpa using h1
        · rw [if_neg hs] at h1; simp at h1
    rw [hl]; exact hpre
  · rw [if_neg hpre] at h
    simp at h

/-- Every link the embedded-class pass produces passed the domain check
against `url_base`. -/
theorem embedded_links_startswith (page : Page) (url_base : Url) (l : Url)
    (h : l ∈ Crawler.embedded_links page url_base) :
    pyStartswith l url_base = true := by
  unfold Crawler.embedded_links at h
  rcases List.mem_flatMap.mp h with ⟨cl, _, h1⟩
  rcases List.mem_flatMap.mp h1 with ⟨c, _, h2⟩
  by_cases hpre : pyStartswith (Crawler.format_links url_base c.firstAnchor) url_base = true
  · rw [if_pos hpre] at h2
    have hl : l = Crawler.format_links url_base c.firstAnchor := by simpa using h2
    rw [hl]; exact hpre
  · rw [if_neg hpre] at h2
    simp at h2

/-- The frequency-list loop started at a counter value of at most 150
keeps the first `151 - count` remaining words: the source's counter logic
retains one word more than the intended 150. -/
theorem freqLoop_spec (ws : List String) :
    ∀ (count : Nat) (acc : List String), count ≤ 150 →
      Digger.freqLoop count ws acc = acc ++ ws.take (151 - count) := by
  induction ws with
  | nil => intro c acc _; simp [Digger.freqLoop]
  | cons w rest ih =>
    intro c acc h
    unfold Digger.freqLoop
    rw [if_pos h]
    by_cases h1 : c + 1 > 150
    · have hc : c = 150 := by omega
      subst hc
      rw [if_pos h1]
      have h2 : 151 - 150 = 1 := by norm_num
      rw [h2]
      simp
    · rw [if_neg h1, ih (c + 1) (acc ++ [w]) (by omega)]
      have h2 : 151 - c = (151 - (c + 1)) + 1 := by omega
      rw [h2, List.take_succ_cons]
      simp

/-- The token loop of the source is the spec's fold, for any initial
accumulated output. -/
theorem lemmaLoop_eq_foldl (fl : List String) (doc : List Token) :
    ∀ vocab : List String,
      Digger.lemmaLoop fl doc vocab
        = doc.foldl (fun out t => if retainedSpec fl out t then out ++ [t.lemma_] else out)
            vocab := by
  induction doc with
  | nil => intro vocab; rfl
  | cons t ts ih =>
    intro vocab
    rw [List.foldl_cons]
    unfold Digger.lemmaLoop
    by_cases h : retainedSpec fl vocab t
    · rw [if_pos h, if_pos (by exact h), ih]
    · rw [if_neg h, if_neg (by exact h), ih]

/-- A fold whose every step either keeps the accumulator or appends one
element not already present preserves duplicate-freeness. -/
theorem foldl_nodup_of_step {β : Type} (l : List β) (f : List String → β → List String)
    (hf : ∀ acc b, b ∈ l → f acc b = acc ∨ ∃ x, x ∉ acc ∧ f acc b = acc ++ [x]) :
    ∀ acc : List String, acc.Nodup → (l.foldl f acc).Nodup := by
  induction l with
  | nil => intro acc h; simpa using h
  | cons b t ih =>
    intro acc h
    rw [List.foldl_cons]
    refine ih (fun acc' b' hb' => hf acc' b' (List.mem_cons_of_mem _ hb')) _ ?_
    rcases hf acc b (List.mem_cons_self _ _) with h1 | ⟨x, hx, h1⟩
    · rw [h1]; exact h
    · rw [h1]
      refine List.Nodup.append h (List.nodup_singleton x) ?_
      intro a ha hb
      rw [List.mem_singleton] at hb
      subst hb
      exact hx ha

/-- The counting loop of `extract_topic` computes `List.count`. -/
theorem word_count_loop_eq_count (ws : List String) (w : String) :
    Digger.word_count_loop ws w = ws.count w := by
  suffices h : ∀ n : Nat, ws.foldl (fun n aw => if aw = w then n + 1 else n) n
      = n + ws.count w by
    simpa [Digger.word_count_loop] using h 0
  induction ws with
  | nil => intro n; simp
  | cons a t ih =>
    intro n
    rw [List.foldl_cons, List.count_cons]
    by_cases haw : a = w
    · rw [if_pos haw, ih, if_pos (by exact beq_iff_eq.mpr haw)]
      omega
    · rw [if_neg haw, ih, if_neg (by simpa using haw)]
      omega

/-- Filtering by membership in `w :: vs` with `w ∉ vs` splits into the
count of `w` plus filtering by membership in `vs`. -/
theorem length_filter_mem_cons (toks : List String) (w : String) (vs : List String)
    (hw : w ∉ vs) :
    (toks.filter (fun t => decide (t ∈ w :: vs))).length
      = toks.count w + (toks.filter (fun t => decide (t ∈ vs))).length := by
  induction toks with
  | nil => simp
  | cons t ts ih =>
    by_cases h1 : t = w
    · subst h1
      rw [List.filter_cons, List.filter_cons, List.count_cons,
          if_pos (show decide (t ∈ t :: vs) = true by simp),
          if_neg (show ¬ decide (t ∈ vs) = true by simpa using hw),
          if_pos (show (t == t) = true by simp)]
      rw [List.length_cons, ih]
      omega
    · by_cases h2 : t ∈ vs
      · rw [List.filter_cons, List.filter_cons, List.count_cons,
            if_pos (show decide (t ∈ w :: vs) = true by simp [h2]),
            if_pos (show decide (t ∈ vs) = true by simp [h2]),
            if_neg (show ¬ (t == w) = true by simp [h1])]
        rw [List.length_cons, List.length_cons, ih]
        omega
      · rw [List.filter_cons, List.filter_cons, List.count_cons,
            if_neg (show ¬ decide (t ∈ w :: vs) = true by simp [h1, h2]),
            if_neg (show ¬ decide (t ∈ vs) = true by simp [h2]),
            if_neg (show ¬ (t == w) = true by simp [h1])]
        rw [ih]
        omega

/-! ## Claim theorems -/

/-- Claim C1 (code bug): the claim says the visited-count never exceeds
the configured budget.  The loop guard `vis_count <= count` of line 116
admits a page when the count already equals the budget, so a budget of 1
yields two fetched pages and a final visited-count of 2. -/
theorem spider_budget_overrun :
    envC1.count = 1
    ∧ (spider envC1 5 "http://a.com").1 = ["http://a.com", "http://a.com/b"]
    ∧ Except.map CrawlState.vis_count (spider envC1 5 "http://a.com").2 = Except.ok 2 :=
  ⟨rfl, rfl, rfl⟩

/-- Claim C2 (code bug): the claim says `Crawler.request` never raises on
a transport error.  `requests.get(url)` at line 84 sits outside the `try`
of lines 86-97, so connection, invalid-scheme and timeout errors raised by
`get` propagate; only the non-200 path inside the `try` yields the
sentinel document. -/
theorem request_transport_error_propagates :
    Crawler.request GetResult.connError = Except.error PyErr.requestsConnectionError
    ∧ Crawler.request GetResult.invalidSchema = Except.error PyErr.requestsInvalidSchema
    ∧ Crawler.request GetResult.timeout = Except.error PyErr.requestsTimeout
    ∧ Crawler.request (GetResult.ok 404 "<html></html>") = Except.ok empty_document :=
  ⟨rfl, rfl, rfl, rfl⟩

/-- Claim C3 (confirmed): every link appended to the pending frontier by
`Crawler.get_links` — through the per-anchor path or the embedded-container
path, in any relaxation mode — starts with the base-domain string given to
link discovery, hence contains it. -/
theorem get_links_domain_containment (page : Page) (url_base : Url) (sloppy : Bool)
    (l : Url) (h : l ∈ Crawler.get_links page url_base sloppy) :
    ∃ t : String, l = url_base ++ t := by
  apply pyStartswith_exists
  unfold Crawler.get_links at h
  rcases List.mem_append.mp h with h | h
  · rcases List.mem_flatMap.mp h with ⟨a, _, hl⟩
    exact anchor_links_startswith _ _ _ _ hl
  · by_cases hs : sloppy
    · rw [if_pos hs] at h
      simp at h
    · rw [if_neg hs] at h
      exact embedded_links_startswith _ _ _ h

/-- Witness for C3 at a concrete page: the single discovered link of
`pageA` is in-domain. -/
theorem get_links_domain_containment_witness :
    ("http://a.com/b" ∈ Crawler.get_links pageA "http://a.com" false)
    ∧ ∃ t : String, "http://a.com/b" = "http://a.com" ++ t := by
  have hmem : "http://a.com/b" ∈ Crawler.get_links pageA "http://a.com" false := by
    rw [show Crawler.get_links pageA "http://a.com" false = ["http://a.com/b"] from rfl]
    exact List.mem_singleton.mpr rfl
  exact ⟨hmem, get_links_domain_containment pageA "http://a.com" false _ hmem⟩

/-- Claim C4 counterexample: with the unsupported language `de`, the crawl
does fetch the first page (the fetch trace is nonempty) before the
configuration error is raised, contradicting "no page is fetched or
processed before the unsupported language is detected". -/
theorem spider_unsupported_lang_cex :
    spider envC4 5 "http://a.com" = (["http://a.com"], Except.error PyErr.nameError)
    ∧ (spider envC4 5 "http://a.com").1 ≠ [] := by
  refine ⟨rfl, ?_⟩
  rw [show spider envC4 5 "http://a.com"
      = (["http://a.com"], Except.error PyErr.nameError) from rfl]
  simp

/-- Claim C4 amended: for every unsupported language code the first
lemmatizer invocation raises `NameError`, which propagates fatally — the
crawl aborts with no page marked visited and no state surviving — but the
first page is fetched (and its text extracted) before the error is
detected. -/
theorem spider_unsupported_lang_fatal (env : SpiderEnv) (fuel : Nat) (url : Url)
    (h1 : env.lang ≠ "en") (h2 : env.lang ≠ "sv") :
    spider env (fuel + 1) url = ([url], Except.error PyErr.nameError) := by
  simp [spider, spiderLoop, spiderStep, Digger.lemmatize, h1, h2]

/-- Witness for the amended C4 at the concrete environment `envC4`. -/
theorem spider_unsupported_lang_fatal_witness :
    envC4.lang ≠ "en" ∧ envC4.lang ≠ "sv"
    ∧ spider envC4 5 "http://a.com" = (["http://a.com"], Except.error PyErr.nameError) :=
  ⟨by decide, by decide,
   spider_unsupported_lang_fatal envC4 4 "http://a.com" (by decide) (by decide)⟩

/-- Claim C5 counterexample: the frequency-list loop keeps 151 words, not
150.  The token `zzzz` — the 151st most frequent word — satisfies every
retention condition of the claim (in particular it is *not* among the
top-150 words), yet the source's lemmatize filters it out. -/
theorem lemmatize_top150_cex :
    Digger.lemmatize fr151 "en" [tokZ] = Except.ok []
    ∧ retainedSpec (fr151.take 150) [] tokZ := by
  refine ⟨rfl, ?_⟩
  unfold retainedSpec
  refine ⟨by decide, by decide, by decide, by decide, by decide, by decide⟩

/-- Claim C5 amended: for the supported languages, a lemma is retained iff
it has not already appeared in this document's output, its POS is
open-class, it is longer than 3 characters, it is not among the first
**151** entries of the frequency list, and it contains neither `%` nor
`"` — i.e. the source's lemmatize equals the spec's normalize with a
151-word frequency snapshot. -/
theorem lemmatize_eq_normalizeSpec (freqRows : List String) (lang : String)
    (doc : List Token) (h : lang = "en" ∨ lang = "sv") :
    Digger.lemmatize freqRows lang doc
      = Except.ok (normalizeSpec (freqRows.take 151) doc) := by
  have hfreq : Digger.freqLoop 0 freqRows [] = freqRows.take 151 := by
    have := freqLoop_spec freqRows 0 [] (by omega)
    simpa using this
  unfold Digger.lemmatize normalizeSpec
  rcases h with h | h <;> rw [h] <;> simp [hfreq, lemmaLoop_eq_foldl]

/-- Witness for the amended C5 at a concrete document. -/
theorem lemmatize_eq_normalizeSpec_witness :
    (("en" : String) = "en" ∨ ("en" : String) = "sv")
    ∧ Digger.lemmatize ["the"] "en" [{ lemma_ := "brown", pos_ := "ADJ" }]
        = Except.ok (normalizeSpec ((["the"] : List String).take 151)
            [{ lemma_ := "brown", pos_ := "ADJ" }]) :=
  ⟨Or.inl rfl,
   lemmatize_eq_normalizeSpec ["the"] "en" [{ lemma_ := "brown", pos_ := "ADJ" }] (Or.inl rfl)⟩

/-- Claim C6 counterexample: a paragraph carrying two configured text
classes at once is appended once per matching class under strict mode —
the dedup check of line 242 runs before the class loop, not inside it —
so the per-page snippet list contains a duplicate. -/
theorem extract_text_duplicate_cex :
    Digger.extract_text_list pgDupClasses false = ["hello", "hello"]
    ∧ ¬ (Digger.extract_text_list pgDupClasses false).Nodup := by
  refine ⟨rfl, ?_⟩
  rw [show Digger.extract_text_list pgDupClasses false = ["hello", "hello"] from rfl]
  decide

/-- Claim C6 amended: the per-page snippet list is duplicate-free in every
relaxation mode provided each paragraph's class attribute matches at most
one configured text class (the counterexample shows a paragraph matching
two classes is appended twice under strict mode). -/
theorem extract_text_nodup_of_single_class (page : Page) (sloppy : Bool)
    (h : ∀ p ∈ page.paras,
        (Digger.css_classes.filter (fun cl => Digger.paraHasClass p cl)).length ≤ 1) :
    (Digger.extract_text_list page sloppy).Nodup := by
  have hstep : ∀ (acc : List String) (p : Para), p ∈ page.paras →
      Digger.paraStep sloppy acc p = acc
        ∨ ∃ x, x ∉ acc ∧ Digger.paraStep sloppy acc p = acc ++ [x] := by
    intro acc p hp
    unfold Digger.paraStep
    by_cases hmem : p.text ∈ acc
    · left
      rw [if_pos hmem]
    · rw [if_neg hmem]
      by_cases hs : sloppy
      · right
        refine ⟨p.text, hmem, ?_⟩
        rw [if_pos hs, if_pos hs]
        simp
      · rw [if_neg hs, if_neg hs]
        cases hfl : Digger.css_classes.filter (fun cl => Digger.paraHasClass p cl) with
        | nil =>
          left
          simp
        | cons c rest =>
          have h2 := h p hp
          rw [hfl, List.length_cons] at h2
          have h3 : rest = [] := List.eq_nil_of_length_eq_zero (by omega)
          subst h3
          right
          refine ⟨p.text, hmem, ?_⟩
          simp
  have hstep2 : ∀ (acc : List String) (c : Container), c ∈ Digger.embeddedTextItems page →
      Digger.embeddedTextStep acc c = acc
        ∨ ∃ x, x ∉ acc ∧ Digger.embeddedTextStep acc c = acc ++ [x] := by
    intro acc c _
    rcases hfp : c.firstPara with _ | t
    · left
      unfold Digger.embeddedTextStep
      rw [hfp]
    · by_cases hmem : t ∈ acc
      · left
        unfold Digger.embeddedTextStep
        rw [hfp]
        simp [hmem]
      · right
        refine ⟨t, hmem, ?_⟩
        unfold Digger.embeddedTextStep
        rw [hfp]
        simp [hmem]
  have hbase : (page.paras.foldl (Digger.paraStep sloppy) []).Nodup :=
    foldl_nodup_of_step page.paras (Digger.paraStep sloppy) hstep [] List.nodup_nil
  simp only [Digger.extract_text_list]
  by_cases hs : sloppy
  · rw [if_pos hs]
    exact hbase
  · rw [if_neg hs]
    exact foldl_nodup_of_step (Digger.embeddedTextItems page) Digger.embeddedTextStep hstep2
      _ hbase

/-- Witness for the amended C6: a page with one class-matching paragraph,
one classless paragraph and one embedded container produces a
duplicate-free snippet list. -/
theorem extract_text_nodup_witness :
    (∀ p ∈ pgSingleClass.paras,
        (Digger.css_classes.filter (fun cl => Digger.paraHasClass p cl)).length ≤ 1)
    ∧ (Digger.extract_text_list pgSingleClass false).Nodup :=
  ⟨by decide, extract_text_nodup_of_single_class pgSingleClass false (by decide)⟩

/-- Claim C7 (confirmed): `Crawler.format_links` is total (the missing- or
malformed-href failures are caught internally): an href starting with `/`
is concatenated onto the base domain, any other href is returned verbatim,
and an absent href (or absent anchor) falls back to the base domain. -/
theorem format_links_spec (url_base : Url) :
    (∀ (a : Anchor) (h : Url), a.href = some h →
        Crawler.format_links url_base (some a)
          = if pyStartswith h "/" then url_base ++ h else h)
    ∧ (∀ a : Anchor, a.href = none → Crawler.format_links url_base (some a) = url_base)
    ∧ Crawler.format_links url_base none = url_base := by
  refine ⟨fun a h hh => ?_, fun a hh => ?_, rfl⟩
  · show Crawler.format_links url_base (some a) = _
    unfold Crawler.format_links
    dsimp only
    rw [hh]
  · show Crawler.format_links url_base (some a) = _
    unfold Crawler.format_links
    dsimp only
    rw [hh]

/-- Witness for C7 at concrete anchors: a relative href, an absolute href,
a missing href, and a missing anchor. -/
theorem format_links_spec_witness :
    Crawler.format_links "http://a.com" (some { href := some "/x", classes := none })
      = "http://a.com/x"
    ∧ Crawler.format_links "http://a.com" (some { href := some "https://b.org/y", classes := none })
      = "https://b.org/y"
    ∧ Crawler.format_links "http://a.com" (some { href := none, classes := none })
      = "http://a.com"
    ∧ Crawler.format_links "http://a.com" none = "http://a.com" := by
  refine ⟨?_, ?_, ?_, ?_⟩
  · rw [(format_links_spec "http://a.com").1 { href := some "/x", classes := none } "/x" rfl]
    rfl
  · rw [(format_links_spec "http://a.com").1
      { href := some "https://b.org/y", classes := none } "https://b.org/y" rfl]
    rfl
  · exact (format_links_spec "http://a.com").2.1 { href := none, classes := none } rfl
  · exact (format_links_spec "http://a.com").2.2

/-- Claim C8 (confirmed): cell (i, j) of the document-term matrix is the
count of vocabulary term j among the whitespace-split tokens of document i
(the matrix is the row-wise map of per-term counts), and, for a
duplicate-free vocabulary snapshot, each row sums to the document's total
number of vocabulary-term occurrences counting multiplicities. -/
theorem extract_topic_matrix_spec (articles uniq : List String) (h : uniq.Nodup) :
    Digger.topic_array articles uniq
        = articles.map (fun a => uniq.map (fun w => (pySplit a).count w))
    ∧ ∀ a : String, (Digger.array_column uniq a).sum
        = ((pySplit a).filter (fun t => decide (t ∈ uniq))).length := by
  constructor
  · unfold Digger.topic_array Digger.array_column
    simp [word_count_loop_eq_count]
  · intro a
    unfold Digger.array_column
    simp only [word_count_loop_eq_count]
    induction uniq with
    | nil => simp
    | cons w vs ih =>
      rw [List.nodup_cons] at h
      rw [List.map_cons, List.sum_cons, ih h.2,
          length_filter_mem_cons (pySplit a) w vs h.1]

/-- Witness for C8 at a concrete corpus. -/
theorem extract_topic_matrix_spec_witness :
    (["x", "beta"] : List String).Nodup
    ∧ (Digger.array_column ["x", "beta"] "x y x").sum
        = ((pySplit "x y x").filter (fun t => decide (t ∈ (["x", "beta"] : List String)))).length :=
  ⟨by decide, (extract_topic_matrix_spec ["x y x"] ["x", "beta"] (by decide)).2 "x y x"⟩

/-- Claim C9 (confirmed): the per-link crawl step — the only place the
source marks a page visited (lines 116, 143-144) — is a no-op on a link
already in the visited set: the visited set, the visited-count, and the
whole crawl state are unchanged, and nothing is fetched. -/
theorem spiderStep_visited_idempotent (env : SpiderEnv) (st : CrawlState) (link : Url)
    (h : link ∈ st.visited) :
    spiderStep env st link = ([], Except.ok st) := by
  unfold spiderStep
  rw [if_neg (fun hc => hc.1 h)]

/-- Witness for C9 at a concrete already-visited link. -/
theorem spiderStep_visited_idempotent_witness :
    ("http://a.com" ∈ stVisited.visited)
    ∧ spiderStep envC1 stVisited "http://a.com" = ([], Except.ok stVisited) :=
  ⟨by decide,
   spiderStep_visited_idempotent envC1 stVisited "http://a.com" (by decide)⟩

/-- Claim C10 (confirmed): when the article list is empty, `extract_topic`
raises `UnboundLocalError` (the matrix loop never assigned `topic_array`),
the reporting step catches it, prints the relax-the-policy suggestion, and
appends nothing to the per-domain output file. -/
theorem report_phase_empty_corpus (fit : List (List Nat) → List String → String)
    (st : CrawlState) (url : Url) (h : st.article_list = []) :
    report_phase fit st url = { fileAppended := [], printed := [suggestion_message] } := by
  unfold report_phase Digger.extract_topic Digger.topic_array
  rw [h]
  rfl

/-- Witness for C10 at a concrete crawl state with an empty corpus. -/
theorem report_phase_empty_corpus_witness :
    stEmptyCorpus.article_list = []
    ∧ report_phase (fun _ _ => "") stEmptyCorpus "http://a.com"
        = { fileAppended := [], printed := [suggestion_message] } :=
  ⟨rfl, report_phase_empty_corpus (fun _ _ => "") stEmptyCorpus "http://a.com" rfl⟩
